import Mathlib

/-!
Shallow embedding of the movis/zunda sources (enum.py, subtitle.py,
engine.py) together with theorems checking the natural-language
specification against them.

Python dictionaries used as closed string tables are embedded as
association lists; a Python function that raises is embedded as a
function into `Except String`, carrying the raised message.
-/

deriving instance DecidableEq for Except

namespace Movis

/-- Embedding of `enum.py`, class `AttributeType`. -/
inductive AttributeType where
  | scalar
  | vector2d
  | vector3d
  | angle
  | color
  deriving DecidableEq, Fintype, Repr

/-- Embedding of `enum.py`, `AttributeType.from_string`: the chain of
string comparisons; the final `else` raises `ValueError`. Note the source
has no branch returning `AttributeType.COLOR`. -/
def AttributeType.from_string (s : String) : Except String AttributeType :=
  if s = "scalar" then Except.ok AttributeType.scalar
  else if s = "vector2d" then Except.ok AttributeType.vector2d
  else if s = "vector3d" then Except.ok AttributeType.vector3d
  else if s = "angle" then Except.ok AttributeType.angle
  else Except.error ("Unknown attribute type: " ++ s)

/-- Embedding of `enum.py`, class `MotionType` (54 members). -/
inductive MotionType where
  | linear
  | ease_in
  | ease_out
  | ease_in_out
  | ease_in2 | ease_in3 | ease_in4 | ease_in5 | ease_in6 | ease_in7
  | ease_in8 | ease_in9 | ease_in10 | ease_in12 | ease_in14 | ease_in16
  | ease_in18 | ease_in20 | ease_in25 | ease_in30 | ease_in35
  | ease_out2 | ease_out3 | ease_out4 | ease_out5 | ease_out6 | ease_out7
  | ease_out8 | ease_out9 | ease_out10 | ease_out12 | ease_out14 | ease_out16
  | ease_out18 | ease_out20 | ease_out25 | ease_out30 | ease_out35
  | ease_in_out2 | ease_in_out3 | ease_in_out4 | ease_in_out5 | ease_in_out6
  | ease_in_out7 | ease_in_out8 | ease_in_out9 | ease_in_out10 | ease_in_out12
  | ease_in_out14 | ease_in_out16 | ease_in_out18 | ease_in_out20
  | ease_in_out25 | ease_in_out30 | ease_in_out35
  deriving DecidableEq, Fintype, Repr

/-- The numeric value each `MotionType` member carries in `enum.py`
(ease-in at power p is 100+p, ease-out 200+p, ease-in-out 300+p). -/
def MotionType.value : MotionType → Nat
  | .linear => 0
  | .ease_in => 1
  | .ease_out => 2
  | .ease_in_out => 3
  | .ease_in2 => 102 | .ease_in3 => 103 | .ease_in4 => 104 | .ease_in5 => 105
  | .ease_in6 => 106 | .ease_in7 => 107 | .ease_in8 => 108 | .ease_in9 => 109
  | .ease_in10 => 110 | .ease_in12 => 112 | .ease_in14 => 114
  | .ease_in16 => 116 | .ease_in18 => 118 | .ease_in20 => 120
  | .ease_in25 => 125 | .ease_in30 => 130 | .ease_in35 => 135
  | .ease_out2 => 202 | .ease_out3 => 203 | .ease_out4 => 204
  | .ease_out5 => 205 | .ease_out6 => 206 | .ease_out7 => 207
  | .ease_out8 => 208 | .ease_out9 => 209 | .ease_out10 => 210
  | .ease_out12 => 212 | .ease_out14 => 214 | .ease_out16 => 216
  | .ease_out18 => 218 | .ease_out20 => 220 | .ease_out25 => 225
  | .ease_out30 => 230 | .ease_out35 => 235
  | .ease_in_out2 => 302 | .ease_in_out3 => 303 | .ease_in_out4 => 304
  | .ease_in_out5 => 305 | .ease_in_out6 => 306 | .ease_in_out7 => 307
  | .ease_in_out8 => 308 | .ease_in_out9 => 309 | .ease_in_out10 => 310
  | .ease_in_out12 => 312 | .ease_in_out14 => 314 | .ease_in_out16 => 316
  | .ease_in_out18 => 318 | .ease_in_out20 => 320 | .ease_in_out25 => 325
  | .ease_in_out30 => 330 | .ease_in_out35 => 335

/-- Embedding of `enum.py`, dict `STRING_TO_MOTION_TYPE`. -/
def STRING_TO_MOTION_TYPE : List (String × MotionType) :=
  [("linear", .linear),
   ("ease_in", .ease_in),
   ("ease_out", .ease_out),
   ("ease_in_out", .ease_in_out),
   ("ease_in2", .ease_in2), ("ease_in3", .ease_in3), ("ease_in4", .ease_in4),
   ("ease_in5", .ease_in5), ("ease_in6", .ease_in6), ("ease_in7", .ease_in7),
   ("ease_in8", .ease_in8), ("ease_in9", .ease_in9),
   ("ease_in10", .ease_in10), ("ease_in12", .ease_in12),
   ("ease_in14", .ease_in14), ("ease_in16", .ease_in16),
   ("ease_in18", .ease_in18), ("ease_in20", .ease_in20),
   ("ease_in25", .ease_in25), ("ease_in30", .ease_in30),
   ("ease_in35", .ease_in35),
   ("ease_out2", .ease_out2), ("ease_out3", .ease_out3),
   ("ease_out4", .ease_out4), ("ease_out5", .ease_out5),
   ("ease_out6", .ease_out6), ("ease_out7", .ease_out7),
   ("ease_out8", .ease_out8), ("ease_out9", .ease_out9),
   ("ease_out10", .ease_out10), ("ease_out12", .ease_out12),
   ("ease_out14", .ease_out14), ("ease_out16", .ease_out16),
   ("ease_out18", .ease_out18), ("ease_out20", .ease_out20),
   ("ease_out25", .ease_out25), ("ease_out30", .ease_out30),
   ("ease_out35", .ease_out35),
   ("ease_in_out2", .ease_in_out2), ("ease_in_out3", .ease_in_out3),
   ("ease_in_out4", .ease_in_out4), ("ease_in_out5", .ease_in_out5),
   ("ease_in_out6", .ease_in_out6), ("ease_in_out7", .ease_in_out7),
   ("ease_in_out8", .ease_in_out8), ("ease_in_out9", .ease_in_out9),
   ("ease_in_out10", .ease_in_out10), ("ease_in_out12", .ease_in_out12),
   ("ease_in_out14", .ease_in_out14), ("ease_in_out16", .ease_in_out16),
   ("ease_in_out18", .ease_in_out18), ("ease_in_out20", .ease_in_out20),
   ("ease_in_out25", .ease_in_out25), ("ease_in_out30", .ease_in_out30),
   ("ease_in_out35", .ease_in_out35)]

/-- Embedding of `enum.py`, `MotionType.from_string`: dictionary membership
test, returning the stored member or raising `ValueError`. -/
def MotionType.from_string (s : String) : Except String MotionType :=
  match STRING_TO_MOTION_TYPE.lookup s with
  | some m => Except.ok m
  | none => Except.error ("Unknown motion type: " ++ s)

/-- Embedding of `enum.py`, class `BlendingMode` (18 members). -/
inductive BlendingMode where
  | normal
  | multiply
  | screen
  | overlay
  | darken
  | lighten
  | color_dodge
  | color_burn
  | linear_dodge
  | linear_burn
  | hard_light
  | soft_light
  | vivid_light
  | linear_light
  | pin_light
  | difference
  | exclusion
  | subtract
  deriving DecidableEq, Fintype, Repr

/-- Embedding of `enum.py`, dict `STRING_TO_BLENDING_MODE`. -/
def STRING_TO_BLENDING_MODE : List (String × BlendingMode) :=
  [("normal", .normal),
   ("multiply", .multiply),
   ("screen", .screen),
   ("overlay", .overlay),
   ("darken", .darken),
   ("lighten", .lighten),
   ("color_dodge", .color_dodge),
   ("color_burn", .color_burn),
   ("linear_dodge", .linear_dodge),
   ("linear_burn", .linear_burn),
   ("hard_light", .hard_light),
   ("soft_light", .soft_light),
   ("vivid_light", .vivid_light),
   ("linear_light", .linear_light),
   ("pin_light", .pin_light),
   ("difference", .difference),
   ("exclusion", .exclusion),
   ("subtract", .subtract)]

/-- Embedding of `enum.py`, `BlendingMode.from_string`. -/
def BlendingMode.from_string (s : String) : Except String BlendingMode :=
  match STRING_TO_BLENDING_MODE.lookup s with
  | some m => Except.ok m
  | none => Except.error ("Unknown blending mode: " ++ s)

/-- Embedding of `enum.py`, class `MatteMode` (3 members). -/
inductive MatteMode where
  | none
  | alpha
  | luminance
  deriving DecidableEq, Fintype, Repr

/-- Embedding of `enum.py`, dict `STRING_TO_MATTE_MODE`. -/
def STRING_TO_MATTE_MODE : List (String × MatteMode) :=
  [("none", .none), ("alpha", .alpha), ("luminance", .luminance)]

/-- Embedding of `enum.py`, `MatteMode.from_string`. -/
def MatteMode.from_string (s : String) : Except String MatteMode :=
  match STRING_TO_MATTE_MODE.lookup s with
  | Option.some m => Except.ok m
  | Option.none => Except.error ("Unknown matte mode: " ++ s)

/-- Embedding of `enum.py`, class `Direction` (9 members). -/
inductive Direction where
  | bottom_left
  | bottom_center
  | bottom_right
  | center_left
  | center
  | center_right
  | top_left
  | top_center
  | top_right
  deriving DecidableEq, Fintype, Repr

end Movis

/-- Python `x % y` on numbers for positive `y` (embedding of the float
modulo used by the subtitle timestamp formatters, with time as `ℚ`). -/
def pyMod (x y : ℚ) : ℚ := x - y * ⌊x / y⌋

/-- Python `int(x)`: truncation toward zero. -/
def pyInt (x : ℚ) : ℤ := if 0 ≤ x then ⌊x⌋ else ⌈x⌉

/-- Python `int(b)` on a boolean. -/
def pyIntOfBool (b : Bool) : ℤ := if b then 1 else 0

/-- Zero-pad a string on the left to width `w`. -/
def zfill (w : Nat) (s : String) : String :=
  String.mk (List.replicate (w - s.length) '0') ++ s

/-- Python `"\x7b:02d\x7d".format n` for the non-negative values produced by
the timestamp formatters. -/
def fmt02 (n : ℤ) : String := zfill 2 (toString n)

/-- Python `"\x7b:03d\x7d".format n` for non-negative values. -/
def fmt03 (n : ℤ) : String := zfill 3 (toString n)

/-- Helper for `pyReplace`: scans left to right; at each position a match of
`pat` is removed and `rep` emitted, otherwise one character is copied. The
fuel argument (instantiated with the input length) only makes the recursion
structural; every step consumes at least one character. -/
def pyReplaceAux (pat rep : List Char) : Nat → List Char → List Char
  | _, [] => []
  | 0, l => l
  | fuel + 1, c :: cs =>
    if pat ≠ [] ∧ pat.isPrefixOf (c :: cs) then
      rep ++ pyReplaceAux pat rep fuel (List.drop pat.length (c :: cs))
    else
      c :: pyReplaceAux pat rep fuel cs

/-- Python `s.replace pat rep` for non-empty `pat`: non-overlapping
left-to-right replacement (for empty `pat` it returns `s` unchanged; the
sources only use the patterns `"\\n"` and `"\n"`). -/
def pyReplace (s pat rep : String) : String :=
  String.mk (pyReplaceAux pat.data rep.data s.data.length s.data)

/-- Zip of three lists, truncating to the shortest (Python `zip`). -/
def zip3 {α β γ : Type} (as : List α) (bs : List β) (cs : List γ) :
    List (α × β × γ) :=
  as.zip (bs.zip cs)

/-- Zip of four lists, truncating to the shortest (Python `zip`). -/
def zip4 {α β γ δ : Type} (as : List α) (bs : List β) (cs : List γ)
    (ds : List δ) : List (α × β × γ × δ) :=
  as.zip (bs.zip (cs.zip ds))

namespace Movis

/-- Embedding of `subtitle.py`, `ASSStyleType` (a NamedTuple). -/
structure ASSStyleType where
  name : String
  font_name : String
  font_size : ℤ
  primary_color : String
  secondary_color : String
  outline_color : String
  back_color : String
  bold : Bool
  italic : Bool
  underline : Bool
  strike_out : Bool
  scale_x : ℤ
  scale_y : ℤ
  spacing : ℤ
  angle : ℤ
  border_style : ℤ
  outline : ℤ
  shadow : ℤ
  alignment : Direction
  margin_l : ℤ
  margin_r : ℤ
  margin_v : ℤ
  deriving DecidableEq, Repr

/-- The NamedTuple's default field values from `subtitle.py`. -/
def ASSStyleType.default : ASSStyleType where
  name := "Default"
  font_name := "Helvetica"
  font_size := 60
  primary_color := "&Hffffff"
  secondary_color := "&Hffffff"
  outline_color := "&H0"
  back_color := "&H0"
  bold := false
  italic := false
  underline := false
  strike_out := false
  scale_x := 100
  scale_y := 100
  spacing := 0
  angle := 0
  border_style := 1
  outline := 5
  shadow := 0
  alignment := Direction.bottom_center
  margin_l := 10
  margin_r := 10
  margin_v := 30

/-- The `format_str` literal of `subtitle.py`, `_make_ass_style_header`. -/
def ass_format_line : String :=
  "Format: Name, Fontname, Fontsize, PrimaryColour, SecondaryColour, " ++
    "OutlineColour, BackColour, Bold, Italic, Underline, StrikeOut, " ++
    "ScaleX, ScaleY, Spacing, Angle, BorderStyle, " ++
    "Outline, Shadow, Alignment, MarginL, MarginR, MarginV, Encoding"

/-- Embedding of `subtitle.py`, `_make_ass_style_header`. -/
def make_ass_style_header : String :=
  "[V4+ Styles]" ++ "\n" ++ ass_format_line

/-- Embedding of `subtitle.py`, `_make_ass_style`: the f-string template,
with its literal segments split at the comma separators. The Alignment and
Encoding slots are the literal characters `2` and `1`; `s.alignment` is
never read. -/
def make_ass_style (s : ASSStyleType) : String :=
  "Style: " ++ s.name ++ "," ++ s.font_name ++ "," ++ toString s.font_size ++
    "," ++ s.primary_color ++ "," ++ s.secondary_color ++
    "," ++ s.outline_color ++ "," ++ s.back_color ++
    "," ++ toString (pyIntOfBool s.bold) ++ "," ++ toString (pyIntOfBool s.italic) ++
    "," ++ toString (pyIntOfBool s.underline) ++ "," ++ toString (pyIntOfBool s.strike_out) ++
    "," ++ toString s.scale_x ++ "," ++ toString s.scale_y ++
    "," ++ toString s.spacing ++ "," ++ toString s.angle ++
    "," ++ toString s.border_style ++
    "," ++ toString s.outline ++ "," ++ toString s.shadow ++
    "," ++ "2" ++ "," ++ toString s.margin_l ++ "," ++ toString s.margin_r ++
    "," ++ toString s.margin_v ++ "," ++ "1"

/-- Embedding of the `get_time` closure in `subtitle.py`,
`write_ass_file`: `HH:MM:SS.cc`. -/
def get_time (t : ℚ) : String :=
  fmt02 (pyInt (t / 3600)) ++ ":" ++ fmt02 (pyInt (pyMod (t / 60) 60)) ++
    ":" ++ fmt02 (pyInt (pyMod t 60)) ++ "." ++ fmt02 (pyInt (pyMod t 1 * 100))

/-- Embedding of the timestamp format used by `subtitle.py`,
`write_srt_file`: `HH:MM:SS,mmm`. -/
def srt_time (t : ℚ) : String :=
  fmt02 (pyInt (t / 3600)) ++ ":" ++ fmt02 (pyInt (pyMod (t / 60) 60)) ++
    ":" ++ fmt02 (pyInt (pyMod t 60)) ++ "," ++ fmt03 (pyInt (pyMod t 1 * 1000))

/-- Embedding of `cleaned_text` in `subtitle.py`, `write_srt_file`:
`text.replace(r"\n", "").replace("\n", "")`. -/
def cleaned_text (t : String) : String :=
  pyReplace (pyReplace t "\\n" "") "\n" ""

/-- The fixed `[Script Info]` part of the `write_ass_file` header. -/
def script_info (size : ℤ × ℤ) : String :=
  "[Script Info]\n; Script generated by FFmpeg/Lavc60.14.101\n" ++
    "ScriptType: v4.00+\nPlayResX: " ++ toString size.1 ++
    "\nPlayResY: " ++ toString size.2 ++
    "\nScaledBorderAndShadow: yes\nYCbCr Matrix: None\n\n"

/-- The fixed `[Events]` part of the `write_ass_file` header. -/
def events_part : String :=
  "\n\n[Events]\nFormat: Layer, Start, End, Style, Name, MarginL, " ++
    "MarginR, MarginV, Effect, Text\n"

/-- The full header string built by `write_ass_file`. -/
def ass_header (size : ℤ × ℤ) (styles : List ASSStyleType) : String :=
  script_info size ++ make_ass_style_header ++ "\n" ++
    String.intercalate "\n" (styles.map make_ass_style) ++ events_part

/-- Embedding of `line_template` in `write_ass_file`. -/
def dialogue_line (t0 t1 character text : String) : String :=
  "Dialogue: 0," ++ t0 ++ "," ++ t1 ++ "," ++ character ++ ",,0,0,0,," ++ text

/-- The remainder of the default `write_ass_file` header after the
`[V4+ Styles]` marker: the style-table format line, the default style
line and the `[Events]` section. -/
def ass_rest_default : String :=
  "\n" ++ ass_format_line ++ "\n" ++ make_ass_style ASSStyleType.default ++
    events_part

/-- Embedding of `subtitle.py`, `write_ass_file`, as the text written to the
destination file (`header + body`); `none` for the optional arguments means
the Python default (`characters = ['Default'] * len(texts)`,
`styles = [ASSStyleType()]`). -/
def write_ass_content (sts ets : List ℚ) (txts : List String)
    (size : ℤ × ℤ) (characters : Option (List String))
    (styles : Option (List ASSStyleType)) : String :=
  let chars := characters.getD (List.replicate txts.length "Default")
  let stys := styles.getD [ASSStyleType.default]
  ass_header size stys ++
    String.intercalate "\n" ((zip4 sts ets chars txts).map (fun r =>
      dialogue_line (get_time r.1) (get_time r.2.1) r.2.2.1 r.2.2.2))

/-- Embedding of `subtitle.py`, `write_srt_file`, as the text written to the
destination file: per row an index line `i+1`, a timestamp line and the
cleaned text followed by a blank line. -/
def write_srt_content (sts ets : List ℚ) (txts : List String) : String :=
  String.join ((zip3 sts ets txts).enum.map (fun p =>
    toString (p.1 + 1) ++ "\n" ++ srt_time p.2.1 ++ " --> " ++
      srt_time p.2.2.1 ++ "\n" ++ cleaned_text p.2.2.2 ++ "\n\n"))

end Movis

namespace Zunda

/-- Embedding of the timestamp format in `engine.py`, `make_srt_file`
(textually the same format string as the one in `subtitle.py`). -/
def srt_time (t : ℚ) : String :=
  fmt02 (pyInt (t / 3600)) ++ ":" ++ fmt02 (pyInt (pyMod (t / 60) 60)) ++
    ":" ++ fmt02 (pyInt (pyMod t 60)) ++ "," ++ fmt03 (pyInt (pyMod t 1 * 1000))

/-- Embedding of `engine.py`, `make_srt_file`, as the text written to the
destination file: the timeline rows are represented by their
`(start_time, end_time, text)` columns; the text is written unmodified. -/
def make_srt_content (rows : List (ℚ × ℚ × String)) : String :=
  String.join (rows.enum.map (fun p =>
    toString (p.1 + 1) ++ "\n" ++ srt_time p.2.1 ++ " --> " ++
      srt_time p.2.2.1 ++ "\n" ++ p.2.2.2 ++ "\n\n"))

/-- Helper for `make_timeline_rows`: the loop in `engine.py`,
`make_timeline_file`, with the running `start_time` accumulator
(`end_time = start_time + duration; start_time = end_time`). -/
def timeline_rows_from (s : ℚ) : List ℚ → List (ℚ × ℚ)
  | [] => []
  | d :: ds => (s, s + d) :: timeline_rows_from (s + d) ds

/-- Embedding of `engine.py`, `make_timeline_file`, restricted to the
`start_time`/`end_time` columns of the emitted rows: the loop starts at
`start_time = 0` and each clip contributes its duration. -/
def make_timeline_rows (ds : List ℚ) : List (ℚ × ℚ) :=
  timeline_rows_from 0 ds

end Zunda

namespace Movis

/-- Join a list of field strings with comma separators (used to read the
columns of the `Style:` template). -/
def joinComma : List String → String
  | [] => ""
  | [x] => x
  | x :: y :: xs => x ++ "," ++ joinComma (y :: xs)

/-- Split a character list at every occurrence of `sep`. -/
def splitCols (sep : Char) : List Char → List (List Char)
  | [] => [[]]
  | c :: cs =>
    match splitCols sep cs with
    | [] => [[c]]
    | h :: t => if c = sep then [] :: h :: t else (c :: h) :: t

/-- The comma-separated columns of a string. -/
def columnsOn (sep : Char) (s : String) : List String :=
  (splitCols sep s.data).map String.mk

/-- The 23 column values of the `Style:` line emitted by
`make_ass_style`, in the order declared by the `Format:` header
(Name … Encoding): the Alignment slot (index 18) and the Encoding slot
(index 22) hold the literal constants `2` and `1`. -/
def ass_style_fields (s : ASSStyleType) : List String :=
  [s.name, s.font_name, toString s.font_size, s.primary_color,
   s.secondary_color, s.outline_color, s.back_color,
   toString (pyIntOfBool s.bold), toString (pyIntOfBool s.italic),
   toString (pyIntOfBool s.underline), toString (pyIntOfBool s.strike_out),
   toString s.scale_x, toString s.scale_y, toString s.spacing,
   toString s.angle, toString s.border_style, toString s.outline,
   toString s.shadow, "2", toString s.margin_l, toString s.margin_r,
   toString s.margin_v, "1"]

/-- The `HH:MM:SS.cc` timestamp as the specification states it: fields
`int(t/3600)`, `int((t/60)%60)`, `int(t%60)`, `int((t%1)*100)`, each
zero-padded to two digits. -/
def spec_ass_timestamp (t : ℚ) : String :=
  zfill 2 (toString (pyInt (t / 3600))) ++ ":" ++
    zfill 2 (toString (pyInt (pyMod (t / 60) 60))) ++ ":" ++
    zfill 2 (toString (pyInt (pyMod t 60))) ++ "." ++
    zfill 2 (toString (pyInt (pyMod t 1 * 100)))

/-- The `HH:MM:SS,mmm` timestamp as the specification states it: the
milliseconds field is `int((t%1)*1000)` padded to three digits. -/
def spec_srt_timestamp (t : ℚ) : String :=
  zfill 2 (toString (pyInt (t / 3600))) ++ ":" ++
    zfill 2 (toString (pyInt (pyMod (t / 60) 60))) ++ ":" ++
    zfill 2 (toString (pyInt (pyMod t 60))) ++ "," ++
    zfill 3 (toString (pyInt (pyMod t 1 * 1000)))

/-- Modelled from the spec: a rendered pixel buffer. The renderer and the
`FrameCache` of sections 4.4 and 4.5 are not part of the sources under
`src/`, so the cache protocol is modelled from the specified contract. -/
abbrev Frame : Type := List Nat

/-- Modelled from the spec: the cache entries for one node, keyed by the
query time, holding the rendered buffer. -/
abbrev FrameCache : Type := List (ℚ × Frame)

/-- Modelled from the spec: `get(nodeId, t)` for the fixed node. -/
def FrameCache.get (c : FrameCache) (t : ℚ) : Option Frame :=
  List.lookup t c

/-- Modelled from the spec: rendering at time `t` with the cache enabled:
a valid cached entry is returned as-is, otherwise the pure renderer is run
and its result stored (`put`). `render` is the cache-disabled renderer, a
pure function of the scene graph and the time; the scene graph is fixed
throughout, so it is abstracted into `render` itself. -/
def renderWithCache (render : ℚ → Frame) (c : FrameCache) (t : ℚ) :
    Frame × FrameCache :=
  match FrameCache.get c t with
  | Option.some f => (f, c)
  | Option.none => (render t, (t, render t) :: c)

/-- Modelled from the spec: a cache state is valid for a renderer when
every entry holds exactly what the renderer produces at that key. -/
def FrameCache.Valid (render : ℚ → Frame) (c : FrameCache) : Prop :=
  ∀ p ∈ c, p.2 = render p.1

/-- Modelled from the spec: rendering a sequence of query times (in any
order, repetitions allowed) with the cache enabled, threading the cache. -/
def renderSeq (render : ℚ → Frame) (c : FrameCache) :
    List ℚ → List Frame × FrameCache
  | [] => ([], c)
  | t :: ts =>
    let r := renderWithCache render c t
    let rest := renderSeq render r.2 ts
    (r.1 :: rest.1, rest.2)

end Movis



open Movis

/-- Association-list lookup returns `none` exactly when the key is absent. -/
theorem lookup_eq_none_of_not_mem {α β : Type} [BEq α] [LawfulBEq α]
    (l : List (α × β)) (a : α) (h : a ∉ l.map Prod.fst) :
    l.lookup a = none := by
  induction l with
  | nil => rfl
  | cons p l ih =>
    cases p with
    | mk a1 b1 =>
      simp only [List.map_cons, List.mem_cons, not_or] at h
      have hne : (a == a1) = false := beq_eq_false_iff_ne.mpr h.1
      simp only [List.lookup, hne]
      exact ih h.2

/-- Association-list lookup finds the stored value when keys are distinct. -/
theorem lookup_eq_some_of_mem {α β : Type} [BEq α] [LawfulBEq α]
    (l : List (α × β)) (hn : (l.map Prod.fst).Nodup) (a : α) (b : β)
    (h : (a, b) ∈ l) : l.lookup a = some b := by
  induction l with
  | nil => cases h
  | cons p l ih =>
    simp only [List.map_cons, List.nodup_cons] at hn
    rcases List.mem_cons.mp h with he | hm
    · cases he
      simp [List.lookup]
    · cases p with
    | mk a1 b1 =>
      have hne : (a == a1) = false := by
        simp only [beq_eq_false_iff_ne, ne_eq]
        intro he
        subst he
        exact hn.1 (List.mem_map.mpr ⟨(a, b), hm, rfl⟩)
      simp only [List.lookup, hne]
      exact ih hn.2 hm

/-- C1 (counterexample): power 11 lies in the claimed range 2..35, yet
`MotionType` has no member with the ease-in value 100+11 and
`MotionType.from_string` rejects the identifier `ease_in11`. -/
theorem motion_power_11_missing :
    2 ≤ 11 ∧ 11 ≤ 35 ∧
    (¬ ∃ m : MotionType, MotionType.value m = 100 + 11) ∧
    MotionType.from_string "ease_in11" =
      Except.error "Unknown motion type: ease_in11" := by
  decide

/-- C1 (amended): for every power p in the set actually declared by
`enum.py` — 2..10, 12, 14, 16, 18, 20, 25, 30, 35 — each of the three
easing families has a member at power p (carrying the enum value 100+p,
200+p, 300+p respectively) and `MotionType.from_string` accepts the
identifiers `ease_in<p>`, `ease_out<p>` and `ease_in_out<p>`. -/
theorem motion_powers_available :
    ∀ p ∈ [2, 3, 4, 5, 6, 7, 8, 9, 10, 12, 14, 16, 18, 20, 25, 30, 35],
      (∃ m, MotionType.from_string ("ease_in" ++ toString p) = Except.ok m ∧
        MotionType.value m = 100 + p) ∧
      (∃ m, MotionType.from_string ("ease_out" ++ toString p) = Except.ok m ∧
        MotionType.value m = 200 + p) ∧
      (∃ m, MotionType.from_string ("ease_in_out" ++ toString p) = Except.ok m ∧
        MotionType.value m = 300 + p) := by
  intro p hp
  fin_cases hp <;> decide

/-- C1 (witness): the amended theorem applied at power 5. -/
theorem motion_powers_available_witness :
    5 ∈ [2, 3, 4, 5, 6, 7, 8, 9, 10, 12, 14, 16, 18, 20, 25, 30, 35] ∧
    ((∃ m, MotionType.from_string ("ease_in" ++ toString 5) = Except.ok m ∧
        MotionType.value m = 100 + 5) ∧
      (∃ m, MotionType.from_string ("ease_out" ++ toString 5) = Except.ok m ∧
        MotionType.value m = 200 + 5) ∧
      (∃ m, MotionType.from_string ("ease_in_out" ++ toString 5) = Except.ok m ∧
        MotionType.value m = 300 + 5)) :=
  ⟨by decide, motion_powers_available 5 (by decide)⟩

/-- C2: `MotionType.from_string` returns the stored member for every
string in the curve table and raises for every string outside it. -/
theorem motion_from_string_total (s : String) :
    (∀ m, (s, m) ∈ STRING_TO_MOTION_TYPE →
      MotionType.from_string s = Except.ok m) ∧
    (s ∉ STRING_TO_MOTION_TYPE.map Prod.fst →
      MotionType.from_string s =
        Except.error ("Unknown motion type: " ++ s)) := by
  constructor
  · intro m hm
    have hn : (STRING_TO_MOTION_TYPE.map Prod.fst).Nodup := by decide
    have hl := lookup_eq_some_of_mem STRING_TO_MOTION_TYPE hn s m hm
    simp [MotionType.from_string, hl]
  · intro hs
    have hl := lookup_eq_none_of_not_mem STRING_TO_MOTION_TYPE s hs
    simp [MotionType.from_string, hl]

/-- C2 (witness): the theorem applied to a known identifier and to an
unknown one. -/
theorem motion_from_string_total_witness :
    ("ease_in5", MotionType.ease_in5) ∈ STRING_TO_MOTION_TYPE ∧
    MotionType.from_string "ease_in5" = Except.ok MotionType.ease_in5 ∧
    "cubic" ∉ STRING_TO_MOTION_TYPE.map Prod.fst ∧
    MotionType.from_string "cubic" =
      Except.error ("Unknown motion type: " ++ "cubic") :=
  ⟨by decide,
   (motion_from_string_total "ease_in5").1 MotionType.ease_in5 (by decide),
   by decide,
   (motion_from_string_total "cubic").2 (by decide)⟩

/-- C3: the enum declares all five attribute kinds, but
`AttributeType.from_string` has no branch for the declared kind `color`:
it maps the other four lowercase names to their members and raises
`ValueError` on the input `color`. -/
theorem attribute_from_string_color_missing :
    Fintype.card AttributeType = 5 ∧
    AttributeType.from_string "scalar" = Except.ok AttributeType.scalar ∧
    AttributeType.from_string "vector2d" = Except.ok AttributeType.vector2d ∧
    AttributeType.from_string "vector3d" = Except.ok AttributeType.vector3d ∧
    AttributeType.from_string "angle" = Except.ok AttributeType.angle ∧
    AttributeType.from_string "color" =
      Except.error "Unknown attribute type: color" := by
  decide

/-- C4: `BlendingMode` has exactly the eighteen specified members, the
blend-mode table is a bijection between the eighteen snake_case names and
the eighteen members, `BlendingMode.from_string` returns the stored member
for each name in the table and raises for every other string. -/
theorem blending_mode_table_bijective (s : String) :
    Fintype.card BlendingMode = 18 ∧
    STRING_TO_BLENDING_MODE.length = 18 ∧
    (STRING_TO_BLENDING_MODE.map Prod.fst).Nodup ∧
    (STRING_TO_BLENDING_MODE.map Prod.snd).Nodup ∧
    (∀ m : BlendingMode, m ∈ STRING_TO_BLENDING_MODE.map Prod.snd) ∧
    (∀ p ∈ STRING_TO_BLENDING_MODE,
      BlendingMode.from_string p.1 = Except.ok p.2) ∧
    (s ∉ STRING_TO_BLENDING_MODE.map Prod.fst →
      BlendingMode.from_string s =
        Except.error ("Unknown blending mode: " ++ s)) := by
  refine ⟨by decide, by decide, by decide, by decide, by decide, by decide, ?_⟩
  intro hs
  have hl := lookup_eq_none_of_not_mem STRING_TO_BLENDING_MODE s hs
  simp [BlendingMode.from_string, hl]

/-- C4 (witness): the theorem applied at an unknown mode name. -/
theorem blending_mode_table_bijective_witness :
    "plus" ∉ STRING_TO_BLENDING_MODE.map Prod.fst ∧
    BlendingMode.from_string "plus" =
      Except.error ("Unknown blending mode: " ++ "plus") :=
  ⟨by decide, (blending_mode_table_bijective "plus").2.2.2.2.2.2 (by decide)⟩

/-- C7: `MatteMode` has exactly the three members none, alpha and
luminance; `MatteMode.from_string` maps each of the three names to its
member and raises for every other string. -/
theorem matte_mode_table (s : String) :
    Fintype.card MatteMode = 3 ∧
    STRING_TO_MATTE_MODE.map Prod.fst = ["none", "alpha", "luminance"] ∧
    (∀ m : MatteMode, m ∈ STRING_TO_MATTE_MODE.map Prod.snd) ∧
    (∀ p ∈ STRING_TO_MATTE_MODE, MatteMode.from_string p.1 = Except.ok p.2) ∧
    (s ∉ STRING_TO_MATTE_MODE.map Prod.fst →
      MatteMode.from_string s =
        Except.error ("Unknown matte mode: " ++ s)) := by
  refine ⟨by decide, by decide, by decide, by decide, ?_⟩
  intro hs
  have hl := lookup_eq_none_of_not_mem STRING_TO_MATTE_MODE s hs
  simp [MatteMode.from_string, hl]

/-- C7 (witness): the theorem applied at an unknown matte name. -/
theorem matte_mode_table_witness :
    "screen" ∉ STRING_TO_MATTE_MODE.map Prod.fst ∧
    MatteMode.from_string "screen" =
      Except.error ("Unknown matte mode: " ++ "screen") :=
  ⟨by decide, (matte_mode_table "screen").2.2.2.2 (by decide)⟩

/-- String append is associative (helper for normalizing the f-string
concatenation trees). -/
theorem str_append_assoc (a b c : String) : (a ++ b) ++ c = a ++ (b ++ c) := by
  apply String.ext
  simp [String.data_append]

/-- The style line is the `Format:` columns joined by commas. -/
theorem make_ass_style_eq_joinComma (s : ASSStyleType) :
    make_ass_style s = "Style: " ++ joinComma (ass_style_fields s) := by
  simp only [make_ass_style, ass_style_fields, joinComma, str_append_assoc]

set_option maxHeartbeats 2000000 in
/-- Splitting the default style's emitted line at the commas exhibits the
23 columns, with `2` in the Alignment slot and `1` in the Encoding slot. -/
theorem ass_default_columns :
    columnsOn ',' (make_ass_style ASSStyleType.default) =
      ["Style: Default", "Helvetica", "60", "&Hffffff", "&Hffffff", "&H0",
       "&H0", "0", "0", "0", "0", "100", "100", "0", "0", "1", "5", "0",
       "2", "10", "10", "30", "1"] := by
  decide

/-- C9: the alignment field of `ASSStyleType` does not influence the
emitted style line: changing only `alignment` leaves `make_ass_style`
unchanged, the line is the 23 `Format:` columns joined by commas, and the
Alignment column (index 18) and Encoding column (index 22) are the
constants `2` and `1`; splitting the default style's emitted line at the
commas exhibits exactly those columns. -/
theorem ass_style_ignores_alignment (s : ASSStyleType) (d : Direction) :
    make_ass_style { s with alignment := d } = make_ass_style s ∧
    make_ass_style s = "Style: " ++ joinComma (ass_style_fields s) ∧
    (ass_style_fields s).length = 23 ∧
    (ass_style_fields s).get? 18 = some "2" ∧
    (ass_style_fields s).get? 22 = some "1" ∧
    columnsOn ',' (make_ass_style ASSStyleType.default) =
      ["Style: Default", "Helvetica", "60", "&Hffffff", "&Hffffff", "&H0",
       "&H0", "0", "0", "0", "0", "100", "100", "0", "0", "1", "5", "0",
       "2", "10", "10", "30", "1"] :=
  ⟨rfl, make_ass_style_eq_joinComma s, rfl, rfl, rfl, ass_default_columns⟩

/-- The first row emitted by the timeline loop starts at the accumulator. -/
theorem timeline_rows_from_head (s : ℚ) (ds : List ℚ) (r : ℚ × ℚ)
    (h : (Zunda.timeline_rows_from s ds).get? 0 = some r) : r.1 = s := by
  cases ds with
  | nil => simp [Zunda.timeline_rows_from] at h
  | cons d ds =>
    simp [Zunda.timeline_rows_from] at h
    simp [← h]

/-- The timeline loop emits one row per duration. -/
theorem timeline_rows_from_length (s : ℚ) (ds : List ℚ) :
    (Zunda.timeline_rows_from s ds).length = ds.length := by
  induction ds generalizing s with
  | nil => rfl
  | cons d ds ih => simp [Zunda.timeline_rows_from, ih]

/-- Each row emitted by the timeline loop ends at its start plus the
corresponding duration. -/
theorem timeline_rows_from_end (s : ℚ) (ds : List ℚ) (i : Nat) (r : ℚ × ℚ)
    (d : ℚ) (h1 : (Zunda.timeline_rows_from s ds).get? i = some r)
    (h2 : ds.get? i = some d) : r.2 = r.1 + d := by
  induction ds generalizing s i with
  | nil => simp [Zunda.timeline_rows_from] at h1
  | cons d0 ds ih =>
    cases i with
    | zero =>
      simp [Zunda.timeline_rows_from] at h1 h2
      simp [← h1, h2]
    | succ n =>
      simp only [Zunda.timeline_rows_from, List.get?_cons_succ] at h1 h2
      exact ih (s + d0) n h1 h2

/-- Each row emitted by the timeline loop begins where the previous one
ended. -/
theorem timeline_rows_from_chain (s : ℚ) (ds : List ℚ) (i : Nat)
    (r r' : ℚ × ℚ) (h1 : (Zunda.timeline_rows_from s ds).get? i = some r)
    (h2 : (Zunda.timeline_rows_from s ds).get? (i + 1) = some r') :
    r'.1 = r.2 := by
  induction ds generalizing s i with
  | nil => simp [Zunda.timeline_rows_from] at h1
  | cons d0 ds ih =>
    cases i with
    | zero =>
      simp only [Zunda.timeline_rows_from, List.get?_cons_zero,
        Option.some.injEq, List.get?_cons_succ] at h1 h2
      rw [← h1]
      exact timeline_rows_from_head (s + d0) ds r' h2
    | succ n =>
      simp only [Zunda.timeline_rows_from, List.get?_cons_succ] at h1 h2
      exact ih (s + d0) n h1 h2

/-- C10: for every non-empty list of clip durations, the timeline rows
form a contiguous gap-free partition of time: one row per clip, the first
row starts at 0, each row ends at its start plus the clip's duration, and
every subsequent row starts where the previous one ended. -/
theorem make_timeline_contiguous (ds : List ℚ) (hne : ds ≠ []) :
    (Zunda.make_timeline_rows ds).length = ds.length ∧
    (Zunda.make_timeline_rows ds).head?.map Prod.fst = some 0 ∧
    (∀ i r d, (Zunda.make_timeline_rows ds).get? i = some r →
      ds.get? i = some d → r.2 = r.1 + d) ∧
    (∀ i r r', (Zunda.make_timeline_rows ds).get? i = some r →
      (Zunda.make_timeline_rows ds).get? (i + 1) = some r' →
      r'.1 = r.2) := by
  refine ⟨timeline_rows_from_length 0 ds, ?_, ?_, ?_⟩
  · obtain ⟨d, ds', rfl⟩ := List.exists_cons_of_ne_nil hne
    simp [Zunda.make_timeline_rows, Zunda.timeline_rows_from]
  · intro i r d h1 h2
    exact timeline_rows_from_end 0 ds i r d h1 h2
  · intro i r r' h1 h2
    exact timeline_rows_from_chain 0 ds i r r' h1 h2

/-- C10 (witness): the theorem applied to the duration list [2, 3/2]. -/
theorem make_timeline_contiguous_witness :
    ([(2 : ℚ), 3 / 2] ≠ []) ∧
    ((Zunda.make_timeline_rows [2, 3 / 2]).length = [(2 : ℚ), 3 / 2].length ∧
      (Zunda.make_timeline_rows [2, 3 / 2]).head?.map Prod.fst = some 0 ∧
      (∀ i r d, (Zunda.make_timeline_rows [2, 3 / 2]).get? i = some r →
        [(2 : ℚ), 3 / 2].get? i = some d → r.2 = r.1 + d) ∧
      (∀ i r r', (Zunda.make_timeline_rows [2, 3 / 2]).get? i = some r →
        (Zunda.make_timeline_rows [2, 3 / 2]).get? (i + 1) = some r' →
        r'.1 = r.2)) :=
  ⟨by decide, make_timeline_contiguous [2, 3 / 2] (by decide)⟩

/-- A successful association-list lookup returns a stored pair. -/
theorem mem_of_lookup_eq_some {α β : Type} [BEq α] [LawfulBEq α]
    (l : List (α × β)) (a : α) (b : β) (h : l.lookup a = some b) :
    (a, b) ∈ l := by
  induction l with
  | nil => cases h
  | cons p l ih =>
    cases p with
    | mk a1 b1 =>
      by_cases he : a = a1
      · subst he
        simp [List.lookup] at h
        simp [h]
      · have hne : (a == a1) = false := beq_eq_false_iff_ne.mpr he
        simp only [List.lookup, hne] at h
        exact List.mem_cons_of_mem _ (ih h)

/-- A cache hit returns exactly the pure render result. -/
theorem renderWithCache_fst (render : ℚ → Frame) (c : FrameCache) (t : ℚ)
    (h : FrameCache.Valid render c) :
    (renderWithCache render c t).1 = render t := by
  unfold renderWithCache
  cases hc : FrameCache.get c t with
  | none => rfl
  | some f =>
    simp only
    exact h (t, f) (mem_of_lookup_eq_some c t f hc)

/-- Rendering with the cache preserves cache validity. -/
theorem renderWithCache_valid (render : ℚ → Frame) (c : FrameCache) (t : ℚ)
    (h : FrameCache.Valid render c) :
    FrameCache.Valid render (renderWithCache render c t).2 := by
  unfold renderWithCache
  cases hc : FrameCache.get c t with
  | none =>
    intro p hp
    rcases List.mem_cons.mp hp with he | hm
    · rw [he]
    · exact h p hm
  | some f => exact h

/-- A whole query sequence rendered through the cache equals the pure
per-frame renders. -/
theorem renderSeq_eq_map (render : ℚ → Frame) (c : FrameCache)
    (ts : List ℚ) (h : FrameCache.Valid render c) :
    (renderSeq render c ts).1 = ts.map render := by
  induction ts generalizing c with
  | nil => rfl
  | cons t ts ih =>
    simp only [renderSeq, List.map_cons]
    exact congrArg₂ List.cons (renderWithCache_fst render c t h)
      (ih (renderWithCache render c t).2 (renderWithCache_valid render c t h))

/-- C6: cache transparency. The renderer modelled from the spec is a pure
function of the scene graph and the time, abstracted here as `render`; for
every such scene and every time `t`, rendering through a valid
`FrameCache` (the empty cache is valid, and validity is preserved by every
render) returns exactly the cache-disabled result, and so does every query
sequence in any order. -/
theorem cache_transparency (render : ℚ → Frame) (c : FrameCache) (t : ℚ)
    (ts : List ℚ) (h : FrameCache.Valid render c) :
    FrameCache.Valid render [] ∧
    (renderWithCache render c t).1 = render t ∧
    FrameCache.Valid render (renderWithCache render c t).2 ∧
    (renderSeq render c ts).1 = ts.map render :=
  ⟨fun p hp => absurd hp (List.not_mem_nil p),
   renderWithCache_fst render c t h,
   renderWithCache_valid render c t h,
   renderSeq_eq_map render c ts h⟩

/-- C6 (witness): the theorem applied to a concrete renderer, the cache
state reached after one render, a repeated query time and an out-of-order
query sequence. -/
theorem cache_transparency_witness :
    FrameCache.Valid (fun q => [q.num.toNat]) [((2 : ℚ), [2])] ∧
    (FrameCache.Valid (fun q => [q.num.toNat]) [] ∧
      (renderWithCache (fun q => [q.num.toNat]) [((2 : ℚ), [2])] 2).1 =
        (fun q : ℚ => [q.num.toNat]) 2 ∧
      FrameCache.Valid (fun q => [q.num.toNat])
        (renderWithCache (fun q => [q.num.toNat]) [((2 : ℚ), [2])] 2).2 ∧
      (renderSeq (fun q => [q.num.toNat]) [((2 : ℚ), [2])] [3, 2, 3]).1 =
        [3, 2, 3].map (fun q : ℚ => [q.num.toNat])) := by
  have hv : FrameCache.Valid (fun q => [q.num.toNat]) [((2 : ℚ), [2])] := by
    intro p hp
    simp only [List.mem_singleton] at hp
    subst hp
    decide
  exact ⟨hv, cache_transparency (fun q => [q.num.toNat])
    [((2 : ℚ), [2])] 2 [3, 2, 3] hv⟩

/-- The zunda timestamp formatter is the same function as the movis one
(their sources carry textually identical format strings). -/
theorem srt_time_defs_agree (t : ℚ) : Zunda.srt_time t = Movis.srt_time t :=
  rfl

/-- C8 (counterexample): the two SRT writers disagree on a row whose text
contains the two-character sequence backslash-n (exactly what
`_insert_newlines` produces): `make_srt_file` writes the text verbatim
while `write_srt_file` strips the sequence, so the two bodies have
different lengths. -/
theorem srt_writers_differ :
    Zunda.make_srt_content [(0, 1, "a\\nb")] ≠
      Movis.write_srt_content [0] [1] ["a\\nb"] := by
  intro h
  have h1 : Zunda.make_srt_content [(0, 1, "a\\nb")] =
      "" ++ (toString (0 + 1) ++ "\n" ++ Zunda.srt_time 0 ++ " --> " ++
        Zunda.srt_time 1 ++ "\n" ++ "a\\nb" ++ "\n\n") := rfl
  have h2 : Movis.cleaned_text "a\\nb" = "ab" := by decide
  have h3 : Movis.write_srt_content [0] [1] ["a\\nb"] =
      "" ++ (toString (0 + 1) ++ "\n" ++ Movis.srt_time 0 ++ " --> " ++
        Movis.srt_time 1 ++ "\n" ++ Movis.cleaned_text "a\\nb" ++ "\n\n") := rfl
  rw [h1, h3, h2] at h
  have hlen := congrArg String.length h
  simp only [String.length_append, srt_time_defs_agree] at hlen
  have e1 : ("a\\nb" : String).length = 4 := by decide
  have e2 : ("ab" : String).length = 2 := by decide
  rw [e1, e2] at hlen
  omega

/-- C8 (amended): the two SRT writers agree on every sequence of rows
whose texts are unchanged by `write_srt_file`'s cleaning (texts containing
neither a newline character nor the two-character sequence backslash-n):
same indices, same timestamp lines, same cue text. -/
theorem srt_writers_agree (sts ets : List ℚ) (txts : List String)
    (h : ∀ r ∈ zip3 sts ets txts, Movis.cleaned_text r.2.2 = r.2.2) :
    Zunda.make_srt_content (zip3 sts ets txts) =
      Movis.write_srt_content sts ets txts := by
  unfold Zunda.make_srt_content Movis.write_srt_content
  congr 1
  apply List.map_congr_left
  intro p hp
  have hmem : p.2 ∈ zip3 sts ets txts := by
    have := List.mem_enum_iff_getElem?.mp hp
    exact List.getElem?_mem this
  rw [h p.2 hmem, srt_time_defs_agree, srt_time_defs_agree]

/-- C8 (witness): the amended theorem applied to two clean rows. -/
theorem srt_writers_agree_witness :
    (∀ r ∈ zip3 [(0 : ℚ), 1] [(1 : ℚ), 2] ["hi", "yo"],
      Movis.cleaned_text r.2.2 = r.2.2) ∧
    Zunda.make_srt_content (zip3 [(0 : ℚ), 1] [(1 : ℚ), 2] ["hi", "yo"]) =
      Movis.write_srt_content [(0 : ℚ), 1] [(1 : ℚ), 2] ["hi", "yo"] := by
  have hc : ∀ r ∈ zip3 [(0 : ℚ), 1] [(1 : ℚ), 2] ["hi", "yo"],
      Movis.cleaned_text r.2.2 = r.2.2 := by decide
  exact ⟨hc, srt_writers_agree [0, 1] [1, 2] ["hi", "yo"] hc⟩

/-- The ASS `get_time` formatter is exactly the claimed
field-by-field `HH:MM:SS.cc` format. -/
theorem get_time_eq_spec (t : ℚ) : get_time t = spec_ass_timestamp t := rfl

/-- The SRT timestamp formatter is exactly the claimed
field-by-field `HH:MM:SS,mmm` format. -/
theorem srt_time_eq_spec (t : ℚ) : srt_time t = spec_srt_timestamp t := rfl

/-- The default `write_ass_file` header splits as the `[Script Info]`
part, the `[V4+ Styles]` marker, and the rest. -/
theorem ass_header_split : ass_header (1920, 1080) [ASSStyleType.default] =
    script_info (1920, 1080) ++ ("[V4+ Styles]" ++ ass_rest_default) := by
  simp only [ass_header, make_ass_style_header, ass_rest_default,
    String.intercalate, List.map_cons, List.map_nil, String.intercalate.go,
    str_append_assoc]

/-- With the default characters argument every dialogue row uses the
`Default` style name and the spec timestamp format. -/
theorem ass_lines_default (sts ets : List ℚ) (txts : List String)
    (h1 : sts.length = ets.length) (h2 : ets.length = txts.length) :
    (zip4 sts ets (List.replicate txts.length "Default") txts).map (fun r =>
      dialogue_line (get_time r.1) (get_time r.2.1) r.2.2.1 r.2.2.2) =
    (zip3 sts ets txts).map (fun r =>
      dialogue_line (spec_ass_timestamp r.1) (spec_ass_timestamp r.2.1)
        "Default" r.2.2) := by
  induction sts generalizing ets txts with
  | nil => rfl
  | cons s sts ih =>
    cases ets with
    | nil => cases h1
    | cons e ets =>
      cases txts with
      | nil => cases h2
      | cons tx txts =>
        simp only [List.length_cons, List.replicate, zip4, zip3,
          List.zip_cons_cons, List.map_cons] at *
        exact congrArg₂ List.cons rfl (ih ets txts (by omega) (by omega))

/-- C5: for every sequence of cue rows with non-negative times,
`write_ass_file` emits each timestamp as `HH:MM:SS.cc` with fields
`int(t/3600)`, `int((t/60)%60)`, `int(t%60)`, `int((t%1)*100)` each
zero-padded to two digits, preceded by a header containing the
`[V4+ Styles]` style table, and `write_srt_file` emits each timestamp as
`HH:MM:SS,mmm` with milliseconds field `int((t%1)*1000)` padded to three
digits, each cue preceded by the sequential index 1, 2, 3, … in row
order. -/
theorem subtitle_exact_formats (sts ets : List ℚ) (txts : List String)
    (h1 : sts.length = ets.length) (h2 : ets.length = txts.length)
    (h3 : ∀ t ∈ sts ++ ets, 0 ≤ t) :
    write_ass_content sts ets txts (1920, 1080) none none =
      (script_info (1920, 1080) ++ ("[V4+ Styles]" ++ ass_rest_default)) ++
        String.intercalate "\n" ((zip3 sts ets txts).map (fun r =>
          dialogue_line (spec_ass_timestamp r.1) (spec_ass_timestamp r.2.1)
            "Default" r.2.2)) ∧
    write_srt_content sts ets txts =
      String.join ((zip3 sts ets txts).enum.map (fun p =>
        toString (p.1 + 1) ++ "\n" ++ spec_srt_timestamp p.2.1 ++ " --> " ++
          spec_srt_timestamp p.2.2.1 ++ "\n" ++ cleaned_text p.2.2.2 ++
          "\n\n")) := by
  constructor
  · show ass_header (1920, 1080) [ASSStyleType.default] ++
      String.intercalate "\n"
        ((zip4 sts ets (List.replicate txts.length "Default") txts).map
          (fun r =>
            dialogue_line (get_time r.1) (get_time r.2.1) r.2.2.1 r.2.2.2)) = _
    rw [ass_header_split, ass_lines_default sts ets txts h1 h2]
  · show String.join ((zip3 sts ets txts).enum.map (fun p =>
      toString (p.1 + 1) ++ "\n" ++ srt_time p.2.1 ++ " --> " ++
        srt_time p.2.2.1 ++ "\n" ++ cleaned_text p.2.2.2 ++ "\n\n")) = _
    simp only [srt_time_eq_spec]

/-- C5 (witness): the theorem applied to two concrete cue rows. -/
theorem subtitle_exact_formats_witness :
    [(0 : ℚ), 2].length = [(1 : ℚ), 3].length ∧
    [(1 : ℚ), 3].length = ["a", "b"].length ∧
    (∀ t ∈ [(0 : ℚ), 2] ++ [(1 : ℚ), 3], 0 ≤ t) ∧
    (write_ass_content [0, 2] [1, 3] ["a", "b"] (1920, 1080) none none =
      (script_info (1920, 1080) ++ ("[V4+ Styles]" ++ ass_rest_default)) ++
        String.intercalate "\n" ((zip3 [0, 2] [1, 3] ["a", "b"]).map (fun r =>
          dialogue_line (spec_ass_timestamp r.1) (spec_ass_timestamp r.2.1)
            "Default" r.2.2)) ∧
      write_srt_content [0, 2] [1, 3] ["a", "b"] =
        String.join ((zip3 [0, 2] [1, 3] ["a", "b"]).enum.map (fun p =>
          toString (p.1 + 1) ++ "\n" ++ spec_srt_timestamp p.2.1 ++ " --> " ++
            spec_srt_timestamp p.2.2.1 ++ "\n" ++ cleaned_text p.2.2.2 ++
            "\n\n"))) :=
  ⟨rfl, rfl, by decide,
    subtitle_exact_formats [0, 2] [1, 3] ["a", "b"] rfl rfl (by decide)⟩
